import Mathlib

/-!
Shallow embedding of `agent.py`, a scheduled news-briefing bot:
fetch headlines from the GNews API, summarize them with a generative model,
and post the result to a Discord webhook.  External effects (HTTP GET,
model call, webhook POST) are modelled as explicit inputs; Python
exceptions are modelled with `Except PyError`.
-/

namespace NewsAgent

/-- Python exceptions that the code under study can raise or catch.
`requestException` covers `requests.exceptions.RequestException` and all of
its subclasses (connection errors, `HTTPError` from `raise_for_status`,
JSON-decode errors); `keyError` models `KeyError` from a `dict` lookup. -/
inductive PyError where
  | requestException (msg : String)
  | keyError (key : String)
  deriving DecidableEq, Repr

/-- The `title` entry of one article object in the API's JSON body.
`absent` means the object has no `title` key (lookup raises `KeyError`);
`null` means the value is JSON null (falsy in Python);
`str s` means the value is the string `s` (falsy iff empty). -/
inductive TitleField where
  | absent
  | null
  | str (s : String)
  deriving DecidableEq, Repr

/-- One element of the `articles` array of the API response body. -/
structure Article where
  title : TitleField
  deriving DecidableEq, Repr

/-- The parsed JSON body of an API response.  `articles = none` models a
JSON object that lacks the `articles` key, so that `data.get` falls back
to the empty list. -/
structure ResponseBody where
  articles : Option (List Article)
  deriving DecidableEq, Repr

/-- Outcome of the `requests.get` call in `fetch_important_headlines`.
`networkError` models a request that raises (connection failure, timeout);
`response status body` models a completed HTTP response, where
`body = none` means `response.json()` fails to decode (which `requests`
surfaces as a `RequestException` subclass). -/
inductive HttpGetResult where
  | networkError
  | response (status : Nat) (body : Option ResponseBody)
  deriving DecidableEq, Repr

/-- Model of `response.raise_for_status()`: raises `HTTPError` (a
`RequestException`) exactly when the status code is in 400..599. -/
def raise_for_status (status : Nat) : Except PyError Unit :=
  if 400 ≤ status ∧ status < 600 then
    Except.error (PyError.requestException "HTTPError")
  else
    Except.ok ()

/-- Python truthiness of a present `title` value: JSON null and the empty
string are falsy, every other string is truthy. -/
def truthyTitle : TitleField → Option String
  | TitleField.absent => none
  | TitleField.null => none
  | TitleField.str s => if s = "" then none else some s

/-- The list comprehension
`[article['title'] for article in data.get('articles', []) if article['title']]`:
looking up a missing `title` key raises `KeyError`; otherwise falsy titles
are filtered out and truthy ones kept in array order. -/
def extractHeadlines : List Article → Except PyError (List String)
  | [] => Except.ok []
  | a :: rest =>
    match a.title with
    | TitleField.absent => Except.error (PyError.keyError "title")
    | TitleField.null => extractHeadlines rest
    | TitleField.str s =>
      match extractHeadlines rest with
      | Except.error e => Except.error e
      | Except.ok tail => Except.ok (if s = "" then tail else s :: tail)

/-- The GNews request URL built in `fetch_important_headlines`, with the
API key interpolated and the query fixed to `lang=en`, `country=in`,
`max=10`. -/
def gnews_url (gnews_api_key : String) : String :=
  "https://gnews.io/api/v4/top-headlines?token=" ++ gnews_api_key ++
    "&lang=en&country=in&max=10"

/-- The body of the `try` block of `fetch_important_headlines`:
GET, `raise_for_status`, JSON decode, then the title comprehension. -/
def fetch_try (r : HttpGetResult) : Except PyError (List String) :=
  match r with
  | HttpGetResult.networkError =>
    Except.error (PyError.requestException "ConnectionError")
  | HttpGetResult.response status body =>
    match raise_for_status status with
    | Except.error e => Except.error e
    | Except.ok () =>
      match body with
      | none => Except.error (PyError.requestException "JSONDecodeError")
      | some b => extractHeadlines (b.articles.getD [])

/-- The function `fetch_important_headlines`: runs the `try` block; the `except` clause
catches exactly `requests.exceptions.RequestException`, logging and
returning the empty list.  Any other exception (such as `KeyError`)
propagates to the caller. -/
def fetch_important_headlines (r : HttpGetResult) : Except PyError (List String) :=
  match fetch_try r with
  | Except.ok headlines => Except.ok headlines
  | Except.error (PyError.requestException _) => Except.ok []
  | Except.error e => Except.error e

/-- Python `str.strip()`: removes leading and trailing whitespace
characters (an executable model, structural over the character list). -/
def pyStrip (s : String) : String :=
  String.mk (((s.data.dropWhile Char.isWhitespace).reverse.dropWhile
    Char.isWhitespace).reverse)

/-- The fixed sentence returned when the headline list is empty. -/
def NO_HEADLINES_MSG : String := "No headlines found to create a briefing."

/-- The fixed fallback string returned when the model call fails. -/
def FALLBACK_MSG : String := "Could not generate the briefing due to an API error."

/-- Model of `headlines_str = "\n".join(f"- {h}" for h in headlines)`. -/
def headlines_str (headlines : List String) : String :=
  String.intercalate "\n" (headlines.map (fun h => "- " ++ h))

/-- The f-string prompt built in `create_briefing_from_headlines`, with
`headlines_str` interpolated. -/
def briefing_prompt (headlines : List String) : String :=
  "\n    You are a world-class editor for an intelligent news service in Bengaluru.\n" ++
  "    Your task is to analyze the following list of top headlines from India and create a concise morning briefing.\n" ++
  "    Select the 4-5 most critical stories that a busy professional must know.\n" ++
  "    For each selected headline, write a single, impactful sentence summarizing the key takeaway.\n" ++
  "    Format the entire output for Discord using Markdown. Use * for bolding headlines.\n\n" ++
  "    Here are today\x27s headlines:\n    " ++ headlines_str headlines ++ "\n    "

/-- The function `create_briefing_from_headlines`: on an empty (falsy) headline list it
short-circuits with the fixed "no headlines" sentence and no model call.
Otherwise it builds the prompt, calls `gemini_model.generate_content`
(modelled by the argument `generate_content`), and returns the model text
stripped of surrounding whitespace; a bare `except Exception` turns any
model error into the fixed fallback string.  The second component of the
result lists the prompts sent to the model during the call. -/
def create_briefing_from_headlines (generate_content : String → Except PyError String)
    (headlines : List String) : String × List String :=
  if headlines.isEmpty then
    (NO_HEADLINES_MSG, [])
  else
    let prompt := briefing_prompt headlines
    match generate_content prompt with
    | Except.ok text => (pyStrip text, [prompt])
    | Except.error _ => (FALLBACK_MSG, [prompt])

/-- The JSON payload POSTed to the Discord webhook:
`data = {"content": briefing_text}` — a single `content` field carrying
the text unchanged. -/
structure DiscordPayload where
  content : String
  deriving DecidableEq, Repr

/-- Outcome of the `requests.post` call to the webhook. -/
inductive WebhookResult where
  | networkError
  | response (status : Nat)
  deriving DecidableEq, Repr

/-- The body of the `try` block of `send_discord_message`: POST the
payload, then `raise_for_status`.  Every exception this block can raise
is a `RequestException`. -/
def send_try (outcome : WebhookResult) : Except PyError Unit :=
  match outcome with
  | WebhookResult.networkError =>
    Except.error (PyError.requestException "ConnectionError")
  | WebhookResult.response status => raise_for_status status

/-- The function `send_discord_message`: builds the payload, POSTs it, and logs the
outcome.  The `except requests.exceptions.RequestException` clause catches
every failure of the `try` block, so the function returns normally in all
cases; the `Bool` records whether the success log line was reached. -/
def send_discord_message (outcome : WebhookResult) (briefing_text : String) :
    Except PyError (DiscordPayload × Bool) :=
  let data : DiscordPayload := { content := briefing_text }
  match send_try outcome with
  | Except.ok () => Except.ok (data, true)
  | Except.error (PyError.requestException _) => Except.ok (data, false)
  | Except.error e => Except.error e

/-- The greeting line built in `run_agent_job`:
`f"## 🇮🇳 Your Morning Briefing: {today_date_str}\n"`. -/
def greeting_line (today_date_str : String) : String :=
  "## 🇮🇳 Your Morning Briefing: " ++ today_date_str ++ "\n"

/-- The external collaborators of one run of `run_agent_job`. -/
structure JobEnv where
  today_date_str : String
  http : HttpGetResult
  generate_content : String → Except PyError String
  webhook : WebhookResult

/-- Observable behavior of one run of `run_agent_job`. -/
structure JobObs where
  /-- headline list passed to `create_briefing_from_headlines`, if invoked -/
  briefingInvoked : Option (List String)
  /-- prompts sent to the Gemini model -/
  modelPrompts : List String
  /-- payload handed to `send_discord_message`, if invoked -/
  published : Option DiscordPayload
  /-- the "No headlines to process" log line was emitted -/
  skippedLog : Bool
  deriving Repr

/-- The function `run_agent_job`: builds the greeting, fetches headlines; on a truthy
(non-empty) list it generates the briefing, concatenates
`greeting + briefing`, and sends it to Discord; otherwise it logs and
stops.  Uncaught exceptions from the stages propagate out. -/
def run_agent_job (env : JobEnv) : Except PyError JobObs :=
  let greeting := greeting_line env.today_date_str
  match fetch_important_headlines env.http with
  | Except.error e => Except.error e
  | Except.ok headlines =>
    if headlines.isEmpty then
      Except.ok { briefingInvoked := none, modelPrompts := [],
                  published := none, skippedLog := true }
    else
      let result := create_briefing_from_headlines env.generate_content headlines
      let full_message := greeting ++ result.1
      match send_discord_message env.webhook full_message with
      | Except.error e => Except.error e
      | Except.ok (payload, _) =>
        Except.ok { briefingInvoked := some headlines, modelPrompts := result.2,
                    published := some payload, skippedLog := false }

/-- The process environment at startup: the three secrets read from
`os.environ`, each possibly missing. -/
structure StartupEnv where
  google_api_key : Option String
  gnews_api_key : Option String
  discord_webhook_url : Option String
  deriving DecidableEq, Repr

/-- The diagnostic printed by the startup `except KeyError` handler:
`f"🛑 FATAL ERROR: Missing secret key in .env file: {e}"`, where a
`KeyError` formats as the quoted key name. -/
def missing_key_message (key : String) : String :=
  "🛑 FATAL ERROR: Missing secret key in .env file: \x27" ++ key ++ "\x27"

/-- Result of module startup and the `__main__` block. -/
inductive ProgramOutcome where
  /-- the `except KeyError` handler printed the diagnostic and called
  `exit()` (implicit exit status); no job ran, no schedule was registered -/
  | exitedAtStartup (diagnostic : String)
  /-- configuration loaded; the job runs once and a daily trigger is
  registered at the given wall-clock time -/
  | scheduled (daily_time : String)
  deriving DecidableEq, Repr

/-- Module startup: the `try` block reads `GOOGLE_API_KEY`,
`GNEWS_API_KEY`, `DISCORD_WEBHOOK_URL` in that order; the first missing
key raises `KeyError`, which the handler turns into a printed diagnostic
followed by `exit()`.  Otherwise the `__main__` block runs the job once
and schedules it daily at 07:30. -/
def program_startup (env : StartupEnv) : ProgramOutcome :=
  match env.google_api_key with
  | none => ProgramOutcome.exitedAtStartup (missing_key_message "GOOGLE_API_KEY")
  | some _ =>
    match env.gnews_api_key with
    | none => ProgramOutcome.exitedAtStartup (missing_key_message "GNEWS_API_KEY")
    | some _ =>
      match env.discord_webhook_url with
      | none => ProgramOutcome.exitedAtStartup (missing_key_message "DISCORD_WEBHOOK_URL")
      | some _ => ProgramOutcome.scheduled "07:30"

/-- Number of article objects carried by an HTTP GET outcome (zero when
there is no decodable body). -/
def articleCount : HttpGetResult → Nat
  | HttpGetResult.response _ (some b) => (b.articles.getD []).length
  | _ => 0

/-- A failure that `requests` surfaces as a `RequestException`: a raised
GET, an HTTP error status, or an undecodable JSON body. -/
def requestLevelFailure (r : HttpGetResult) : Prop :=
  r = HttpGetResult.networkError ∨
    ∃ status body, r = HttpGetResult.response status body ∧
      ((400 ≤ status ∧ status < 600) ∨ body = none)

theorem extractHeadlines_error {l : List Article} {e : PyError}
    (h : extractHeadlines l = Except.error e) :
    e = PyError.keyError "title" ∧ ∃ a ∈ l, a.title = TitleField.absent := by
  induction l with
  | nil => simp [extractHeadlines] at h
  | cons a rest ih =>
    cases ht : a.title with
    | absent =>
      refine ⟨?_, a, List.mem_cons_self a rest, ht⟩
      simp [extractHeadlines, ht] at h
      exact h.symm
    | null =>
      simp only [extractHeadlines, ht] at h
      obtain ⟨he, a', ha', ht'⟩ := ih h
      exact ⟨he, a', List.mem_cons_of_mem _ ha', ht'⟩
    | str s =>
      simp only [extractHeadlines, ht] at h
      cases hr : extractHeadlines rest with
      | ok tail => rw [hr] at h; simp at h
      | error e' =>
        rw [hr] at h
        simp only [Except.error.injEq] at h
        obtain ⟨he, a', ha', ht'⟩ := ih (hr.trans (by rw [h]))
        exact ⟨he, a', List.mem_cons_of_mem _ ha', ht'⟩

theorem extractHeadlines_ok {l : List Article} {hs : List String}
    (h : extractHeadlines l = Except.ok hs) :
    hs = l.filterMap (fun a => truthyTitle a.title) := by
  induction l generalizing hs with
  | nil => simp [extractHeadlines] at h; simp [h]
  | cons a rest ih =>
    cases ht : a.title with
    | absent => simp [extractHeadlines, ht] at h
    | null =>
      simp only [extractHeadlines, ht] at h
      simp [List.filterMap_cons, ht, truthyTitle, ih h]
    | str s =>
      simp only [extractHeadlines, ht] at h
      cases hr : extractHeadlines rest with
      | error e => rw [hr] at h; simp at h
      | ok tail =>
        rw [hr] at h
        simp only [Except.ok.injEq] at h
        by_cases hs0 : s = "" <;>
          simp [← h, hs0, List.filterMap_cons, ht, truthyTitle, ih hr]

theorem extractHeadlines_length_le {l : List Article} {hs : List String}
    (h : extractHeadlines l = Except.ok hs) : hs.length ≤ l.length := by
  rw [extractHeadlines_ok h]
  exact (List.length_filterMap_le _ _)

theorem send_discord_message_total (outcome : WebhookResult) (text : String) :
    ∃ logged, send_discord_message outcome text =
      Except.ok ({ content := text }, logged) := by
  cases outcome with
  | networkError => exact ⟨false, rfl⟩
  | response status =>
    by_cases h : 400 ≤ status ∧ status < 600
    · exact ⟨false, by simp [send_discord_message, send_try, raise_for_status, h]⟩
    · exact ⟨true, by simp [send_discord_message, send_try, raise_for_status, h]⟩

/-- Claim C1: in every run where the headline source returns an empty
headline list, `run_agent_job` invokes neither the briefing generator nor
the publisher; it only emits the skip log line and stops. -/
theorem C1_empty_fetch_skips_pipeline (env : JobEnv)
    (h : fetch_important_headlines env.http = Except.ok []) :
    run_agent_job env = Except.ok
      { briefingInvoked := none, modelPrompts := [],
        published := none, skippedLog := true } := by
  unfold run_agent_job
  rw [h]
  rfl

/-- Claim C1 witness: a run whose GET raises a network error fetches the
empty list, and the job skips the briefing and publish stages. -/
theorem C1_witness :
    run_agent_job
      { today_date_str := "Monday, June 02, 2025",
        http := HttpGetResult.networkError,
        generate_content := fun _ => Except.error (PyError.requestException "boom"),
        webhook := WebhookResult.response 200 } =
    Except.ok { briefingInvoked := none, modelPrompts := [],
                published := none, skippedLog := true } :=
  C1_empty_fetch_skips_pipeline _ rfl

/-- Claim C2 counterexample: a well-formed 200 response whose single
article object lacks the `title` key makes `fetch_important_headlines`
raise `KeyError` past its boundary instead of returning the empty list,
because the `except` clause catches only `RequestException`. -/
theorem C2_counterexample :
    fetch_important_headlines
      (HttpGetResult.response 200
        (some { articles := some [{ title := TitleField.absent }] })) =
    Except.error (PyError.keyError "title") := rfl

/-- Claim C2 amended: every request-level failure (raised GET, HTTP error
status, JSON-decode failure — all surfaced as `RequestException`) results
in the empty list; the only exception that escapes the function is the
`KeyError` raised by an article object lacking the `title` key. -/
theorem C2_amended_request_errors_degrade (r : HttpGetResult) :
    (requestLevelFailure r → fetch_important_headlines r = Except.ok []) ∧
    (∀ e, fetch_important_headlines r = Except.error e →
      e = PyError.keyError "title" ∧
      ∃ status b arts, r = HttpGetResult.response status (some b) ∧
        b.articles = some arts ∧ ∃ a ∈ arts, a.title = TitleField.absent) := by
  constructor
  · intro hfail
    rcases hfail with h | ⟨s, b, heq, hcase⟩
    · subst h; rfl
    · subst heq
      rcases hcase with hrange | hnone
      · simp [fetch_important_headlines, fetch_try, raise_for_status, hrange]
      · subst hnone
        by_cases hr : 400 ≤ s ∧ s < 600 <;>
          simp [fetch_important_headlines, fetch_try, raise_for_status, hr]
  · intro e he
    cases r with
    | networkError => simp [fetch_important_headlines, fetch_try] at he
    | response status body =>
      by_cases hrange : 400 ≤ status ∧ status < 600
      · simp [fetch_important_headlines, fetch_try, raise_for_status, hrange] at he
      · cases body with
        | none =>
          simp [fetch_important_headlines, fetch_try, raise_for_status, hrange] at he
        | some b =>
          simp only [fetch_important_headlines, fetch_try, raise_for_status, hrange,
            if_false] at he
          cases hx : extractHeadlines (b.articles.getD []) with
          | ok l => rw [hx] at he; simp at he
          | error e' =>
            rw [hx] at he
            obtain ⟨hk, a, ha, ht⟩ := extractHeadlines_error hx
            subst hk
            replace he : (Except.error (PyError.keyError "title") :
              Except PyError (List String)) = Except.error e := he
            injection he with he
            subst he
            cases harts : b.articles with
            | none =>
              rw [harts] at ha
              simp at ha
            | some arts =>
              refine ⟨rfl, status, b, arts, rfl, harts, a, ?_, ht⟩
              rw [harts] at ha
              simpa using ha

/-- Claim C2 witness: a raised GET is a request-level failure and the
fetch degrades to the empty list. -/
theorem C2_witness :
    fetch_important_headlines HttpGetResult.networkError = Except.ok [] :=
  (C2_amended_request_errors_degrade HttpGetResult.networkError).1 (Or.inl rfl)

/-- Claim C3: a successful response whose articles array carries titles
"A", "" and "B" yields exactly ["A", "B"]: the falsy empty title is
filtered out, the others kept. -/
theorem C3_falsy_titles_filtered (status : Nat)
    (h : ¬ (400 ≤ status ∧ status < 600)) :
    fetch_important_headlines
      (HttpGetResult.response status
        (some { articles := some [{ title := TitleField.str "A" },
                                  { title := TitleField.str "" },
                                  { title := TitleField.str "B" }] })) =
    Except.ok ["A", "B"] := by
  simp [fetch_important_headlines, fetch_try, raise_for_status, h, extractHeadlines]

/-- Claim C3 witness: the scenario at HTTP status 200. -/
theorem C3_witness :
    fetch_important_headlines
      (HttpGetResult.response 200
        (some { articles := some [{ title := TitleField.str "A" },
                                  { title := TitleField.str "" },
                                  { title := TitleField.str "B" }] })) =
    Except.ok ["A", "B"] :=
  C3_falsy_titles_filtered 200 (by decide)

theorem run_agent_job_publishes (env : JobEnv) (headlines : List String)
    (hf : fetch_important_headlines env.http = Except.ok headlines)
    (hne : headlines ≠ []) :
    run_agent_job env = Except.ok
      { briefingInvoked := some headlines,
        modelPrompts := (create_briefing_from_headlines env.generate_content headlines).2,
        published := some { content := greeting_line env.today_date_str ++
          (create_briefing_from_headlines env.generate_content headlines).1 },
        skippedLog := false } := by
  have hne' : headlines.isEmpty = false := by
    cases headlines with
    | nil => exact absurd rfl hne
    | cons a t => rfl
  obtain ⟨logged, hsend⟩ := send_discord_message_total env.webhook
    (greeting_line env.today_date_str ++
      (create_briefing_from_headlines env.generate_content headlines).1)
  unfold run_agent_job
  rw [hf]
  simp only [hne', Bool.false_eq_true, if_false, hsend]

/-- Claim C4: on a non-empty headline list, a failing model call makes
`create_briefing_from_headlines` return the fixed fallback string after a
single model call, without raising, and `run_agent_job` still publishes
greeting + fallback to Discord. -/
theorem C4_model_failure_falls_back (env : JobEnv) (headlines : List String)
    (e : PyError)
    (hf : fetch_important_headlines env.http = Except.ok headlines)
    (hne : headlines ≠ [])
    (hm : env.generate_content (briefing_prompt headlines) = Except.error e) :
    create_briefing_from_headlines env.generate_content headlines =
      (FALLBACK_MSG, [briefing_prompt headlines]) ∧
    run_agent_job env = Except.ok
      { briefingInvoked := some headlines,
        modelPrompts := [briefing_prompt headlines],
        published := some
          { content := greeting_line env.today_date_str ++ FALLBACK_MSG },
        skippedLog := false } := by
  have hne' : headlines.isEmpty = false := by
    cases headlines with
    | nil => exact absurd rfl hne
    | cons a t => rfl
  have hbrief : create_briefing_from_headlines env.generate_content headlines =
      (FALLBACK_MSG, [briefing_prompt headlines]) := by
    unfold create_briefing_from_headlines
    rw [hne']
    simp [hm]
  refine ⟨hbrief, ?_⟩
  rw [run_agent_job_publishes env headlines hf hne, hbrief]

/-- Claim C4 witness: a concrete run whose model call raises publishes
the greeting followed by the fallback string. -/
theorem C4_witness :
    run_agent_job
      { today_date_str := "Friday, June 06, 2025",
        http := HttpGetResult.response 200
          (some { articles := some [{ title := TitleField.str "X" }] }),
        generate_content := fun _ =>
          Except.error (PyError.requestException "model down"),
        webhook := WebhookResult.response 500 } =
    Except.ok
      { briefingInvoked := some ["X"],
        modelPrompts := [briefing_prompt ["X"]],
        published := some
          { content := greeting_line "Friday, June 06, 2025" ++ FALLBACK_MSG },
        skippedLog := false } :=
  (C4_model_failure_falls_back
    { today_date_str := "Friday, June 06, 2025",
      http := HttpGetResult.response 200
        (some { articles := some [{ title := TitleField.str "X" }] }),
      generate_content := fun _ =>
        Except.error (PyError.requestException "model down"),
      webhook := WebhookResult.response 500 }
    ["X"] (PyError.requestException "model down") rfl (by decide) rfl).2

/-- Claim C5: on the empty headline list,
`create_briefing_from_headlines` short-circuits to the fixed
"no headlines" sentence and makes no model call. -/
theorem C5_empty_list_short_circuits
    (generate_content : String → Except PyError String) :
    create_briefing_from_headlines generate_content [] =
      (NO_HEADLINES_MSG, []) := rfl

/-- Claim C6: a run that reaches the publish stage with a successful
model call posts a payload whose single `content` field is exactly
greeting + briefing, the briefing being the model output stripped of
surrounding whitespace. -/
theorem C6_publishes_exact_concatenation (env : JobEnv)
    (headlines : List String) (text : String)
    (hf : fetch_important_headlines env.http = Except.ok headlines)
    (hne : headlines ≠ [])
    (hm : env.generate_content (briefing_prompt headlines) = Except.ok text) :
    run_agent_job env = Except.ok
      { briefingInvoked := some headlines,
        modelPrompts := [briefing_prompt headlines],
        published := some
          { content := greeting_line env.today_date_str ++ pyStrip text },
        skippedLog := false } := by
  have hne' : headlines.isEmpty = false := by
    cases headlines with
    | nil => exact absurd rfl hne
    | cons a t => rfl
  have hbrief : create_briefing_from_headlines env.generate_content headlines =
      (pyStrip text, [briefing_prompt headlines]) := by
    unfold create_briefing_from_headlines
    rw [hne']
    simp [hm]
  rw [run_agent_job_publishes env headlines hf hne, hbrief]

/-- Claim C6 witness: with model output "  hello  " the published content
is the greeting followed by "hello". -/
theorem C6_witness :
    run_agent_job
      { today_date_str := "Friday, June 06, 2025",
        http := HttpGetResult.response 200
          (some { articles := some [{ title := TitleField.str "X" }] }),
        generate_content := fun _ => Except.ok "  hello  ",
        webhook := WebhookResult.response 204 } =
    Except.ok
      { briefingInvoked := some ["X"],
        modelPrompts := [briefing_prompt ["X"]],
        published := some
          { content := greeting_line "Friday, June 06, 2025" ++ "hello" },
        skippedLog := false } := by
  have h := C6_publishes_exact_concatenation
    { today_date_str := "Friday, June 06, 2025",
      http := HttpGetResult.response 200
        (some { articles := some [{ title := TitleField.str "X" }] }),
      generate_content := fun _ => Except.ok "  hello  ",
      webhook := WebhookResult.response 204 }
    ["X"] "  hello  " rfl (by decide) rfl
  rw [h]
  have : pyStrip "  hello  " = "hello" := by decide
  rw [this]

/-- Claim C7 counterexample: nothing in `fetch_important_headlines`
truncates the result, so a response carrying eleven articles yields
eleven headlines — more than 10. -/
theorem C7_counterexample :
    fetch_important_headlines
      (HttpGetResult.response 200
        (some { articles := some ([{ title := TitleField.str "t01" },
              { title := TitleField.str "t02" }, { title := TitleField.str "t03" },
              { title := TitleField.str "t04" }, { title := TitleField.str "t05" },
              { title := TitleField.str "t06" }, { title := TitleField.str "t07" },
              { title := TitleField.str "t08" }, { title := TitleField.str "t09" },
              { title := TitleField.str "t10" }, { title := TitleField.str "t11" }] :
              List Article) })) =
      Except.ok ["t01", "t02", "t03", "t04", "t05", "t06", "t07", "t08",
                 "t09", "t10", "t11"] ∧
    ¬ (["t01", "t02", "t03", "t04", "t05", "t06", "t07", "t08",
        "t09", "t10", "t11"] : List String).length ≤ 10 :=
  ⟨rfl, by decide⟩

/-- Claim C7 amended: the request URL fixes `max=10`, and the function
returns at most as many headlines as the response carries articles — so
at most 10 whenever the API honors the requested limit; it does not
truncate a longer response client-side. -/
theorem C7_amended_request_limit (key : String) (r : HttpGetResult)
    (headlines : List String)
    (h : fetch_important_headlines r = Except.ok headlines) :
    (∃ p, gnews_url key = p ++ "&max=10") ∧
    headlines.length ≤ articleCount r ∧
    (articleCount r ≤ 10 → headlines.length ≤ 10) := by
  have hlen : headlines.length ≤ articleCount r := by
    cases r with
    | networkError =>
      simp [fetch_important_headlines, fetch_try] at h
      subst h
      exact Nat.zero_le _
    | response status body =>
      by_cases hrange : 400 ≤ status ∧ status < 600
      · simp [fetch_important_headlines, fetch_try, raise_for_status, hrange] at h
        subst h
        exact Nat.zero_le _
      · cases body with
        | none =>
          simp [fetch_important_headlines, fetch_try, raise_for_status, hrange] at h
          subst h
          exact Nat.zero_le _
        | some b =>
          simp only [fetch_important_headlines, fetch_try, raise_for_status,
            hrange, if_false] at h
          cases hx : extractHeadlines (b.articles.getD []) with
          | ok l =>
            rw [hx] at h
            replace h : (Except.ok l : Except PyError (List String)) =
              Except.ok headlines := h
            injection h with h
            subst h
            exact extractHeadlines_length_le hx
          | error e =>
            obtain ⟨hk, -⟩ := extractHeadlines_error hx
            subst hk
            rw [hx] at h
            replace h : (Except.error (PyError.keyError "title") :
              Except PyError (List String)) = Except.ok headlines := h
            simp at h
  refine ⟨⟨"https://gnews.io/api/v4/top-headlines?token=" ++ key ++
    "&lang=en&country=in", ?_⟩, hlen, fun hc => le_trans hlen hc⟩
  show "https://gnews.io/api/v4/top-headlines?token=" ++ key ++
    "&lang=en&country=in&max=10" =
    "https://gnews.io/api/v4/top-headlines?token=" ++ key ++
      "&lang=en&country=in" ++ "&max=10"
  have h0 : "&lang=en&country=in" ++ "&max=10" = "&lang=en&country=in&max=10" := rfl
  rw [← h0, ← String.append_assoc]

/-- Claim C7 witness: a one-article response yields one headline, within
every bound the amended claim states. -/
theorem C7_witness :
    (∃ p, gnews_url "KEY" = p ++ "&max=10") ∧
    (["A"] : List String).length ≤ articleCount
      (HttpGetResult.response 200
        (some { articles := some [{ title := TitleField.str "A" }] })) ∧
    (articleCount (HttpGetResult.response 200
        (some { articles := some [{ title := TitleField.str "A" }] })) ≤ 10 →
      (["A"] : List String).length ≤ 10) :=
  C7_amended_request_limit "KEY"
    (HttpGetResult.response 200
      (some { articles := some [{ title := TitleField.str "A" }] }))
    ["A"] rfl

/-- Claim C8: the publisher returns normally on every webhook outcome —
the payload is always delivered to the POST and every failure is caught
and only logged — and the orchestrator's observable behavior does not
branch on the webhook outcome. -/
theorem C8_publish_failure_terminal :
    (∀ outcome text, ∃ logged,
      send_discord_message outcome text =
        Except.ok ({ content := text }, logged)) ∧
    (∀ today http gc w1 w2,
      run_agent_job { today_date_str := today, http := http,
                      generate_content := gc, webhook := w1 } =
      run_agent_job { today_date_str := today, http := http,
                      generate_content := gc, webhook := w2 }) := by
  refine ⟨send_discord_message_total, ?_⟩
  intro today http gc w1 w2
  cases hf : fetch_important_headlines http with
  | error e => simp [run_agent_job, hf]
  | ok headlines =>
    cases headlines with
    | nil => simp [run_agent_job, hf]
    | cons a t =>
      rw [run_agent_job_publishes _ (a :: t) hf (by simp),
        run_agent_job_publishes _ (a :: t) hf (by simp)]

/-- Claim C9: startup with any of the three secrets missing prints the
fatal diagnostic naming the missing key and exits before the job runs or
any schedule is registered. -/
theorem C9_missing_secret_is_fatal (env : StartupEnv)
    (h : env.google_api_key = none ∨ env.gnews_api_key = none ∨
      env.discord_webhook_url = none) :
    ∃ key, (key = "GOOGLE_API_KEY" ∨ key = "GNEWS_API_KEY" ∨
        key = "DISCORD_WEBHOOK_URL") ∧
      program_startup env =
        ProgramOutcome.exitedAtStartup (missing_key_message key) := by
  obtain ⟨g, n, d⟩ := env
  cases g with
  | none => exact ⟨"GOOGLE_API_KEY", Or.inl rfl, rfl⟩
  | some g =>
    cases n with
    | none => exact ⟨"GNEWS_API_KEY", Or.inr (Or.inl rfl), rfl⟩
    | some n =>
      cases d with
      | none => exact ⟨"DISCORD_WEBHOOK_URL", Or.inr (Or.inr rfl), rfl⟩
      | some d => rcases h with h | h | h <;> simp at h

/-- Claim C9 witness: an environment without `GOOGLE_API_KEY` exits at
startup with the diagnostic. -/
theorem C9_witness :
    ∃ key, (key = "GOOGLE_API_KEY" ∨ key = "GNEWS_API_KEY" ∨
        key = "DISCORD_WEBHOOK_URL") ∧
      program_startup { google_api_key := none, gnews_api_key := some "G",
                        discord_webhook_url := some "D" } =
        ProgramOutcome.exitedAtStartup (missing_key_message key) :=
  C9_missing_secret_is_fatal _ (Or.inl rfl)

/-- Claim C10: a body without the `articles` key yields the empty list
(no error), and whenever the fetch returns headlines from an `articles`
array they are exactly the truthy titles in array order. -/
theorem C10_missing_key_and_order :
    (∀ status,
      fetch_important_headlines
        (HttpGetResult.response status (some { articles := none })) =
        Except.ok []) ∧
    (∀ status arts headlines, ¬ (400 ≤ status ∧ status < 600) →
      fetch_important_headlines
        (HttpGetResult.response status (some { articles := some arts })) =
        Except.ok headlines →
      headlines = arts.filterMap (fun a => truthyTitle a.title)) := by
  constructor
  · intro status
    by_cases h : 400 ≤ status ∧ status < 600 <;>
      simp [fetch_important_headlines, fetch_try, raise_for_status, h,
        extractHeadlines]
  · intro status arts headlines hrange h
    simp only [fetch_important_headlines, fetch_try, raise_for_status,
      hrange, if_false, Option.getD_some] at h
    cases hx : extractHeadlines arts with
    | ok l =>
      rw [hx] at h
      replace h : (Except.ok l : Except PyError (List String)) =
        Except.ok headlines := h
      injection h with h
      subst h
      exact extractHeadlines_ok hx
    | error e =>
      obtain ⟨hk, -⟩ := extractHeadlines_error hx
      subst hk
      rw [hx] at h
      replace h : (Except.error (PyError.keyError "title") :
        Except PyError (List String)) = Except.ok headlines := h
      simp at h

/-- Claim C10 witness: the missing-key case at status 200, and the
order-preserving filter on a concrete four-article array. -/
theorem C10_witness :
    fetch_important_headlines
      (HttpGetResult.response 200 (some { articles := none })) =
      Except.ok [] ∧
    (["A", "B"] : List String) =
      List.filterMap (fun a : Article => truthyTitle a.title)
        ([{ title := TitleField.str "A" }, { title := TitleField.null },
          { title := TitleField.str "" }, { title := TitleField.str "B" }] :
          List Article) :=
  ⟨C10_missing_key_and_order.1 200,
   C10_missing_key_and_order.2 200
     ([{ title := TitleField.str "A" }, { title := TitleField.null },
       { title := TitleField.str "" }, { title := TitleField.str "B" }] :
       List Article)
     ["A", "B"] (by decide) rfl⟩

end NewsAgent
